import Mathlib

/-!
Verification of the work-item reconciliation core of stakater/alert-az-do.

The Go sources embedded here are `pkg/notify/notify.go` (Receiver.Notify,
findWorkItem, updateWorkItem, createWorkItem, resolveWorkItem,
generateWorkItemDocument, addComment) and the Azure work-item field table
(AzureWorkItemField, AllWorkItemFields, ParseAzureWorkItemField).

Modelling conventions:
  - Go strings are modelled as Lean `String`; Go `len` and byte-slicing are
    modelled at character granularity (`goLen`, `goTake`), which agrees with
    Go exactly on ASCII data.
  - The template engine (`r.tmpl.Execute(template, data)`) is an external
    collaborator; within one `Notify` call the alert data is fixed, so it is
    modelled as a parameter `tmpl : String -> Except String String`.
  - Errors are modelled as strings; `errors.Wrap(err, msg)` produces
    `msg ++ ": " ++ err` exactly as in github.com/pkg/errors.
  - The Azure DevOps client is an oracle structure of response functions; the
    calls a reconciliation run issues are collected in an explicit `List Call`
    threaded through every function, so call counts and call arguments are
    plain data.
  - Go's `map[string]interface{}` of configured fields is modelled as an
    association list (Go map iteration order is unspecified; the list order is
    one determinization of it). Field values are template strings, as rendered
    through `fmt.Sprintf("%v", value)` in the source.
  - A Go type assertion `.(string)` that fails panics; the one such assertion
    on a path the claims touch (addComment's TeamProject lookup) is modelled
    as an explicit error result.
-/

namespace AlertAzDo

/-! ## Alert model (package `pkg/alertmanager`)

Modelled from the spec: the `alertmanager` package source is not under `src/`
(only its test file is). Spec section 4.1 fixes the contract: `firing()`
filters by status Firing preserving order, `fingerprintTags()` maps every
alert to `"Fingerprint:" ++ fingerprint` preserving order, and
`firingFingerprintTags()` is the same restricted to firing alerts. The
repository's own tests (TestAlerts_Firing, TestAlerts_Fingerprints,
TestAlerts_FiringFingerprints) agree with this model. -/

/-- Alert status string used by the upstream alerting system. -/
def AlertFiring : String := "firing"

/-- Modelled from the spec: one alert of a notification batch, carrying its
status and its opaque content-derived fingerprint. -/
structure Alert where
  status : String
  fingerprint : String
deriving DecidableEq, Repr

/-- Modelled from the spec: one webhook delivery; only the alert sequence is
consumed by the reconciliation core, the remaining payload reaches it through
the template engine. -/
structure Data where
  alerts : List Alert
deriving DecidableEq, Repr

/-- Modelled from the spec: `firing()` filters by status Firing, preserving
input order. -/
def firingAlerts (alerts : List Alert) : List Alert :=
  alerts.filter (fun a => a.status = AlertFiring)

/-- Modelled from the spec: `fingerprintTags()` maps every alert, regardless
of status, to its fingerprint tag. -/
def fingerprintTags (alerts : List Alert) : List String :=
  alerts.map (fun a => ("Fingerprint:") ++ a.fingerprint)

/-- Modelled from the spec: `firingFingerprintTags()` is the fingerprint-tag
mapping restricted to the firing alerts. -/
def firingFingerprintTags (alerts : List Alert) : List String :=
  fingerprintTags (firingAlerts alerts)

/-! ## Receiver configuration (package `pkg/config`) -/

/-- `config.AutoResolve`: the state a work item is moved to when its alert
group stops firing. -/
structure AutoResolve where
  state : String
deriving DecidableEq, Repr

/-- `config.ReceiverConfig`, restricted to the fields `pkg/notify` reads.
`fields` is Go's `map[string]interface{}` as an association list of
field-name to template string. -/
structure ReceiverConfig where
  project : String
  issueType : String
  summary : String
  reopenState : String
  priority : String
  description : String
  skipReopenState : String
  fields : List (String × String)
  updateInComment : Option Bool
  autoResolve : Option AutoResolve

/-! ## Azure work-item fields (pkg/notify, field table source file) -/

/-- `AzureWorkItemField.FieldPath()`: the JSON patch path of a field. -/
def fieldPath (f : String) : String := ("/fields/") ++ f

/-- Reference names of the work-item fields the reconciler uses directly. -/
def titleKey : String := "System.Title"

def descriptionKey : String := "System.Description"

def stateKey : String := "System.State"

def idKey : String := "System.Id"

def tagsKey : String := "System.Tags"

def teamProjectKey : String := "System.TeamProject"

def priorityKey : String := "Microsoft.VSTS.Common.Priority"

def titlePath : String := fieldPath titleKey

def descriptionPath : String := fieldPath descriptionKey

def statePath : String := fieldPath stateKey

def tagsPath : String := fieldPath tagsKey

def priorityPath : String := fieldPath priorityKey

/-- `AllWorkItemFields`: every declared field constant, in source order. -/
def AllWorkItemFields : List String := [
  "System.Title", "System.Description", "System.State", "System.AreaId",
  "System.AreaPath", "System.AssignedTo", "System.AttachedFileCount",
  "System.AuthorizedAs", "System.AuthorizedDate", "System.BoardColumn",
  "System.BoardColumnDone", "System.BoardLane", "System.ChangedBy",
  "System.ChangedDate", "System.CommentCount", "System.CreatedBy",
  "System.CreatedDate", "System.ExternalLinkCount", "System.History",
  "System.HyperLinkCount", "System.Id", "System.IterationId",
  "System.IterationPath", "System.NodeName", "System.Parent",
  "System.Reason", "System.RelatedLinkCount", "System.RemoteLinkCount",
  "System.Rev", "System.RevisedDate", "System.Tags", "System.TeamProject",
  "System.Watermark", "System.WorkItemType",
  "Microsoft.VSTS.Common.AcceptanceCriteria",
  "Microsoft.VSTS.Common.ActivatedBy", "Microsoft.VSTS.Common.ActivatedDate",
  "Microsoft.VSTS.Common.Activity", "Microsoft.VSTS.Common.BusinessValue",
  "Microsoft.VSTS.Common.ClosedBy", "Microsoft.VSTS.Common.ClosedDate",
  "Microsoft.VSTS.Common.Issue", "Microsoft.VSTS.Common.Priority",
  "Microsoft.VSTS.Common.Rating", "Microsoft.VSTS.Common.ResolvedBy",
  "Microsoft.VSTS.Common.ResolvedDate",
  "Microsoft.VSTS.Common.ResolvedReason", "Microsoft.VSTS.Common.ReviewedBy",
  "Microsoft.VSTS.Common.Risk", "Microsoft.VSTS.Common.Severity",
  "Microsoft.VSTS.Common.StackRank", "Microsoft.VSTS.Common.StateChangeDate",
  "Microsoft.VSTS.Common.StateCode", "Microsoft.VSTS.Common.TimeCriticality",
  "Microsoft.VSTS.Common.ValueArea",
  "Microsoft.VSTS.Scheduling.CompletedWork", "Microsoft.VSTS.Scheduling.DueDate",
  "Microsoft.VSTS.Scheduling.Effort", "Microsoft.VSTS.Scheduling.FinishDate",
  "Microsoft.VSTS.Scheduling.OriginalEstimate",
  "Microsoft.VSTS.Scheduling.RemainingWork",
  "Microsoft.VSTS.Scheduling.StartDate", "Microsoft.VSTS.Scheduling.StoryPoints",
  "Microsoft.VSTS.Scheduling.TargetDate",
  "Microsoft.VSTS.Build.FoundIn", "Microsoft.VSTS.Build.IntegrationBuild",
  "Microsoft.VSTS.CodeReview.AcceptedBy", "Microsoft.VSTS.CodeReview.AcceptedDate",
  "Microsoft.VSTS.CodeReview.ClosedStatus",
  "Microsoft.VSTS.CodeReview.ClosedStatusCode",
  "Microsoft.VSTS.CodeReview.ClosingComment", "Microsoft.VSTS.CodeReview.Context",
  "Microsoft.VSTS.CodeReview.ContextCode",
  "Microsoft.VSTS.CodeReview.ContextOwner",
  "Microsoft.VSTS.CodeReview.ContextType",
  "Microsoft.VSTS.Feedback.ApplicationLaunchInstructions",
  "Microsoft.VSTS.Feedback.ApplicationStartInformation",
  "Microsoft.VSTS.Feedback.ApplicationType",
  "Microsoft.VSTS.TCM.AutomatedTestId", "Microsoft.VSTS.TCM.AutomatedTestName",
  "Microsoft.VSTS.TCM.AutomatedTestStorage",
  "Microsoft.VSTS.TCM.AutomatedTestType", "Microsoft.VSTS.TCM.AutomationStatus",
  "Microsoft.VSTS.TCM.LocalDataSource", "Microsoft.VSTS.TCM.Parameters",
  "Microsoft.VSTS.TCM.QueryText", "Microsoft.VSTS.TCM.ReproSteps",
  "Microsoft.VSTS.TCM.Steps", "Microsoft.VSTS.TCM.SystemInfo",
  "Microsoft.VSTS.TCM.TestSuiteAudit", "Microsoft.VSTS.TCM.TestSuiteType",
  "Microsoft.VSTS.TCM.TestSuiteTypeId"]

/-- `strings.TrimPrefix`, at character granularity: drop `pre` from the front
of `s` when `s` starts with it, otherwise return `s` unchanged. -/
def goTrimPre (pre s : String) : String :=
  if s.data.take pre.data.length = pre.data then String.mk (s.data.drop pre.data.length)
  else s

/-- `ParseAzureWorkItemField`: accept the raw reference name or the
`/fields/`-prefixed patch path; return the canonical field when known. -/
def ParseAzureWorkItemField (s : String) : Option String :=
  let t := goTrimPre ("/fields/") s
  if t ∈ AllWorkItemFields then some t else none

/-- Field-key resolution of `generateWorkItemDocument` (notify.go:296-303):
known fields use their canonical patch path, unknown keys synthesize
`"/fields/" ++ key`. -/
def resolveFieldPath (key : String) : String :=
  match ParseAzureWorkItemField key with
  | some p => fieldPath p
  | none => ("/fields/") ++ key

/-! ## Patch documents and the client capability -/

/-- `webapi.OperationValues` members the reconciler uses. -/
inductive OperationKind where
  | Add
  | Replace
deriving DecidableEq, Repr

/-- `webapi.JsonPatchOperation`; every value the reconciler sends is a
rendered string. -/
structure JsonPatchOperation where
  op : OperationKind
  path : String
  value : String
deriving DecidableEq, Repr

/-- `workitemtracking.CreateWorkItemArgs` (fields the reconciler sets). -/
structure CreateWorkItemArgs where
  document : List JsonPatchOperation
  project : String
  itemType : String
deriving DecidableEq, Repr

/-- `workitemtracking.UpdateWorkItemArgs`; `resolveWorkItem` leaves the
project unset, `updateWorkItem` sets it. -/
structure UpdateWorkItemArgs where
  document : List JsonPatchOperation
  id : Int
  project : Option String
deriving DecidableEq, Repr

/-- `workitemtracking.AddWorkItemCommentArgs` (fields the reconciler sets). -/
structure AddWorkItemCommentArgs where
  text : String
  project : String
  workItemId : Int
deriving DecidableEq, Repr

/-- `workitemtracking.WorkItem`: its id and its field map. Field values the
reconciler compares are strings; a missing key is `none` (a Go interface
comparison against a missing map entry is never true). -/
structure WorkItem where
  id : Int
  fields : String → Option String

/-- One remote call issued during a reconciliation run. -/
inductive Call where
  | query (wiql : String)
  | getItem (id : Int)
  | create (args : CreateWorkItemArgs)
  | update (args : UpdateWorkItemArgs)
  | comment (args : AddWorkItemCommentArgs)
deriving DecidableEq, Repr

/-- The Azure DevOps work-item tracking client, as a response oracle: each
operation maps its arguments to the remote system's answer. -/
structure Client where
  queryByWiql : String → Except String (List Int)
  getWorkItem : Int → Except String WorkItem
  createWorkItem : CreateWorkItemArgs → Except String WorkItem
  updateWorkItem : UpdateWorkItemArgs → Except String WorkItem
  addWorkItemComment : AddWorkItemCommentArgs → Except String Int

/-- The template engine for one fixed notification payload. -/
abbrev Tmpl := String → Except String String

/-- Arguments of the update calls in a call log, in order. -/
def updateArgsOf : List Call → List UpdateWorkItemArgs
  | [] => []
  | Call.update a :: rest => a :: updateArgsOf rest
  | _ :: rest => updateArgsOf rest

/-- Arguments of the create calls in a call log, in order. -/
def createArgsOf : List Call → List CreateWorkItemArgs
  | [] => []
  | Call.create a :: rest => a :: createArgsOf rest
  | _ :: rest => createArgsOf rest

/-- Arguments of the comment calls in a call log, in order. -/
def commentArgsOf : List Call → List AddWorkItemCommentArgs
  | [] => []
  | Call.comment a :: rest => a :: commentArgsOf rest
  | _ :: rest => commentArgsOf rest

/-! ## The reconciler (pkg/notify/notify.go) -/

/-- Go `len` on a string, at character granularity. -/
def goLen (s : String) : Nat := s.data.length

/-- Go slicing `s[:n]`, at character granularity. -/
def goTake (s : String) (n : Nat) : String := String.mk (s.data.take n)

/-- Title truncation of `generateWorkItemDocument` (notify.go:245-248). -/
def goTitle (t : String) : String :=
  if 128 < goLen t then goTake t 128 else t

/-- A single quote character, used by the WIQL builder. -/
def quoteMark : String := String.singleton (Char.ofNat 39)

/-- The WIQL query of `findWorkItem` (notify.go:163-172): select the item id
where the team project matches and the tags field contains any of the batch's
fingerprint tags. -/
def buildWiql (data : Data) (project : String) : String :=
  let queryArgs := (fingerprintTags data.alerts).map
    (fun a => ("[") ++ tagsKey ++ ("] CONTAINS ") ++ quoteMark ++ a ++ quoteMark)
  ("SELECT [") ++ idKey ++ ("] FROM WorkItems WHERE [") ++ teamProjectKey
    ++ ("] = ") ++ quoteMark ++ project ++ quoteMark ++ (" AND (")
    ++ String.intercalate (" OR ") queryArgs ++ (")")

/-- The joined tag value used by Replace-tags operations
(`strings.Join(data.Alerts.Fingerprints(), "; ")`). -/
def joinedAllTags (data : Data) : String :=
  String.intercalate ("; ") (fingerprintTags data.alerts)

/-- The joined tag value used on creation
(`strings.Join(data.Alerts.FiringFingerprints(), "; ")`). -/
def joinedFiringTags (data : Data) : String :=
  String.intercalate ("; ") (firingFingerprintTags data.alerts)

/-- The optional priority operation of `generateWorkItemDocument`
(notify.go:277-287). -/
def renderPriority (tmpl : Tmpl) (conf : ReceiverConfig) :
    Except String (List JsonPatchOperation) :=
  if conf.priority = ("") then Except.ok []
  else
    match tmpl conf.priority with
    | Except.error e => Except.error (("render priority: ") ++ e)
    | Except.ok v => Except.ok [⟨OperationKind.Add, priorityPath, v⟩]

/-- The configured-fields loop of `generateWorkItemDocument`
(notify.go:290-310): render each value, resolve each key. -/
def renderFields (tmpl : Tmpl) : List (String × String) →
    Except String (List JsonPatchOperation)
  | [] => Except.ok []
  | (key, value) :: rest =>
    match tmpl value with
    | Except.error e => Except.error (("render field ") ++ key ++ (": ") ++ e)
    | Except.ok v =>
      match renderFields tmpl rest with
      | Except.error e => Except.error e
      | Except.ok ops => Except.ok (⟨OperationKind.Add, resolveFieldPath key, v⟩ :: ops)

/-- `generateWorkItemDocument` (notify.go:237-313): title (truncated at 128),
description, optional firing-fingerprint tags, optional priority, configured
fields. -/
def generateWorkItemDocument (tmpl : Tmpl) (conf : ReceiverConfig) (data : Data)
    (addFingerprint : Bool) : Except String (List JsonPatchOperation) :=
  match tmpl conf.summary with
  | Except.error e => Except.error (("render title: ") ++ e)
  | Except.ok title0 =>
    match tmpl conf.description with
    | Except.error e => Except.error (("render description: ") ++ e)
    | Except.ok description =>
      let base :=
        [⟨OperationKind.Add, titlePath, goTitle title0⟩,
         ⟨OperationKind.Add, descriptionPath, description⟩]
        ++ (if addFingerprint ∧ data.alerts ≠ [] then
              [⟨OperationKind.Add, tagsPath, joinedFiringTags data⟩]
            else [])
      match renderPriority tmpl conf with
      | Except.error e => Except.error e
      | Except.ok pops =>
        match renderFields tmpl conf.fields with
        | Except.error e => Except.error e
        | Except.ok fops => Except.ok (base ++ pops ++ fops)

/-- `findWorkItem` (notify.go:158-198). A search returning more than one id
only logs a diagnostic — the treat-as-no-match `return nil, nil` is commented
out in the source — so the first returned id is fetched. -/
def findWorkItem (c : Client) (data : Data) (project : String) :
    Except String (Option WorkItem) × List Call :=
  if data.alerts = [] then (Except.error ("no alerts in data"), [])
  else
    let wiql := buildWiql data project
    match c.queryByWiql wiql with
    | Except.error e => (Except.error (("query work items: ") ++ e), [Call.query wiql])
    | Except.ok [] => (Except.ok none, [Call.query wiql])
    | Except.ok (i :: _) =>
      match c.getWorkItem i with
      | Except.error e => (Except.error e, [Call.query wiql, Call.getItem i])
      | Except.ok wi => (Except.ok (some wi), [Call.query wiql, Call.getItem i])

/-- `addComment` (notify.go:315-336). The source asserts the TeamProject
field to a string (a panic when absent), then posts a fixed comment text. -/
def addComment (c : Client) (wi : WorkItem) : Except String Unit × List Call :=
  match wi.fields teamProjectKey with
  | none => (Except.error ("panic: work item has no TeamProject field"), [])
  | some project =>
    let args : AddWorkItemCommentArgs :=
      ⟨("Issue updated with new alert data"), project, wi.id⟩
    match c.addWorkItemComment args with
    | Except.error e => (Except.error (("create work item comment: ") ++ e), [Call.comment args])
    | Except.ok _ => (Except.ok (), [Call.comment args])

/-- The final patch document of `updateWorkItem` (notify.go:92-107): the
generated document, a Replace of the tags field with every fingerprint tag of
the batch when the batch is non-empty, and a Replace of the state field to
the reopen state when the item sits in the auto-resolve state. -/
def updateDocument (conf : ReceiverConfig) (data : Data) (wi : WorkItem)
    (doc : List JsonPatchOperation) : List JsonPatchOperation :=
  let doc :=
    if data.alerts ≠ [] then
      doc ++ [⟨OperationKind.Replace, tagsPath, joinedAllTags data⟩]
    else doc
  match conf.autoResolve with
  | some ar =>
    if wi.fields stateKey = some ar.state then
      doc ++ [⟨OperationKind.Replace, statePath, conf.reopenState⟩]
    else doc
  | none => doc

/-- `updateWorkItem` (notify.go:82-129): skip silently when the item is in
the skip-reopen state, otherwise build and send the update, then optionally
comment. -/
def updateWorkItem (c : Client) (tmpl : Tmpl) (conf : ReceiverConfig)
    (data : Data) (project : String) (wi : WorkItem) :
    Except String Unit × List Call :=
  if wi.fields stateKey = some conf.skipReopenState then (Except.ok (), [])
  else
    match generateWorkItemDocument tmpl conf data false with
    | Except.error e => (Except.error (("generate work item document: ") ++ e), [])
    | Except.ok doc =>
      let args : UpdateWorkItemArgs := ⟨updateDocument conf data wi doc, wi.id, some project⟩
      match c.updateWorkItem args with
      | Except.error e => (Except.error (("update work item: ") ++ e), [Call.update args])
      | Except.ok _ =>
        if conf.updateInComment = some true then
          let r := addComment c wi
          match r.1 with
          | Except.error e =>
            (Except.error (("add comment to work item: ") ++ e), Call.update args :: r.2)
          | Except.ok _ => (Except.ok (), Call.update args :: r.2)
        else (Except.ok (), [Call.update args])

/-- `createWorkItem` (notify.go:131-156): render the work-item type, build
the document with firing fingerprints, create. -/
def createWorkItem (c : Client) (tmpl : Tmpl) (conf : ReceiverConfig)
    (data : Data) (project : String) : Except String Unit × List Call :=
  match tmpl conf.issueType with
  | Except.error e => (Except.error (("render work item type: ") ++ e), [])
  | Except.ok workItemType =>
    match generateWorkItemDocument tmpl conf data true with
    | Except.error e => (Except.error (("generate work item document: ") ++ e), [])
    | Except.ok doc =>
      let args : CreateWorkItemArgs := ⟨doc, project, workItemType⟩
      match c.createWorkItem args with
      | Except.error e => (Except.error (("create work item: ") ++ e), [Call.create args])
      | Except.ok _ => (Except.ok (), [Call.create args])

/-- `resolveWorkItem` (notify.go:200-235): find the item, build the document
without fingerprints, append the auto-resolve state transition when its state
string is non-empty, update. `Notify` only calls this when autoResolve is
configured; the source would dereference a nil pointer otherwise. -/
def resolveWorkItem (c : Client) (tmpl : Tmpl) (conf : ReceiverConfig)
    (data : Data) (project : String) : Except String Unit × List Call :=
  match findWorkItem c data project with
  | (Except.error e, calls) => (Except.error (("find work item: ") ++ e), calls)
  | (Except.ok none, calls) => (Except.ok (), calls)
  | (Except.ok (some wi), calls) =>
    match conf.autoResolve with
    | none => (Except.error ("panic: nil AutoResolve"), calls)
    | some ar =>
      match generateWorkItemDocument tmpl conf data false with
      | Except.error e => (Except.error (("generate resolve document: ") ++ e), calls)
      | Except.ok doc =>
        let doc :=
          if ar.state ≠ ("") then
            doc ++ [⟨OperationKind.Replace, statePath, ar.state⟩]
          else doc
        let args : UpdateWorkItemArgs := ⟨doc, wi.id, none⟩
        match c.updateWorkItem args with
        | Except.error e => (Except.error (("update work item: ") ++ e), calls ++ [Call.update args])
        | Except.ok _ => (Except.ok (), calls ++ [Call.update args])

/-- `Receiver.Notify` (notify.go:57-80): render the project, then branch on
firing alerts and autoResolve configuration. -/
def Notify (c : Client) (tmpl : Tmpl) (conf : ReceiverConfig) (data : Data) :
    Except String Unit × List Call :=
  match tmpl conf.project with
  | Except.error e => (Except.error (("generate project from template: ") ++ e), [])
  | Except.ok project =>
    if firingAlerts data.alerts ≠ [] then
      match findWorkItem c data project with
      | (Except.error e, calls) => (Except.error (("find work item: ") ++ e), calls)
      | (Except.ok (some wi), calls) =>
        let r := updateWorkItem c tmpl conf data project wi
        (r.1, calls ++ r.2)
      | (Except.ok none, calls) =>
        let r := createWorkItem c tmpl conf data project
        (r.1, calls ++ r.2)
    else
      match conf.autoResolve with
      | some _ => resolveWorkItem c tmpl conf data project
      | none => (Except.ok (), [])

/-! ## Render-success and error-identification predicates (claim C8) -/

/-- The render-success condition of the patch-document builder: summary and
description render, priority renders when configured, every configured field
value renders. -/
def RendersOk (tmpl : Tmpl) (conf : ReceiverConfig) : Prop :=
  (∃ v, tmpl conf.summary = Except.ok v) ∧
  (∃ v, tmpl conf.description = Except.ok v) ∧
  (conf.priority = ("") ∨ ∃ v, tmpl conf.priority = Except.ok v) ∧
  ∀ kv ∈ conf.fields, ∃ v, tmpl kv.2 = Except.ok v

/-- A builder error names the template that failed: the title, the
description, the priority, or the configured field by name. -/
def IdentifiesFailure (tmpl : Tmpl) (conf : ReceiverConfig) (e : String) : Prop :=
  (∃ e0, tmpl conf.summary = Except.error e0 ∧ e = ("render title: ") ++ e0) ∨
  (∃ e0, tmpl conf.description = Except.error e0 ∧ e = ("render description: ") ++ e0) ∨
  (conf.priority ≠ ("") ∧ ∃ e0, tmpl conf.priority = Except.error e0 ∧
    e = ("render priority: ") ++ e0) ∨
  (∃ kv ∈ conf.fields, ∃ e0, tmpl kv.2 = Except.error e0 ∧
    e = ("render field ") ++ kv.1 ++ (": ") ++ e0)

/-! ## Concrete inputs used by counterexamples and witnesses -/

/-- Identity template engine: every template renders to itself. -/
def tmplId : Tmpl := fun s => Except.ok s

def wiDup : WorkItem :=
  ⟨1, fun k => if k = stateKey then some ("Active") else none⟩

/-- A client whose search returns two matching item ids. -/
def clDup : Client :=
  { queryByWiql := fun _ => Except.ok [1, 2],
    getWorkItem := fun _ => Except.ok wiDup,
    createWorkItem := fun _ => Except.ok wiDup,
    updateWorkItem := fun _ => Except.ok wiDup,
    addWorkItemComment := fun _ => Except.ok 0 }

def confPlain : ReceiverConfig :=
  { project := "TestProject", issueType := "Bug", summary := "S",
    reopenState := "Reopen", priority := "", description := "D",
    skipReopenState := "Skip", fields := [], updateInComment := none,
    autoResolve := none }

def confAuto : ReceiverConfig :=
  { project := "TestProject", issueType := "Bug", summary := "S",
    reopenState := "Reopen", priority := "", description := "D",
    skipReopenState := "Skip", fields := [], updateInComment := none,
    autoResolve := some ⟨"Done"⟩ }

def dataFiring : Data := ⟨[⟨AlertFiring, "f1"⟩]⟩

def dataResolved : Data := ⟨[⟨"resolved", "f1"⟩]⟩

def dataMixed : Data := ⟨[⟨AlertFiring, "f2"⟩, ⟨"resolved", "f1"⟩]⟩

def dataEmpty : Data := ⟨[]⟩

def wiActive : WorkItem :=
  ⟨7, fun k => if k = stateKey then some ("Active")
      else if k = teamProjectKey then some ("TestProject") else none⟩

/-- A client whose search returns exactly one matching item, in state Active. -/
def clOne : Client :=
  { queryByWiql := fun _ => Except.ok [7],
    getWorkItem := fun _ => Except.ok wiActive,
    createWorkItem := fun _ => Except.ok wiActive,
    updateWorkItem := fun _ => Except.ok wiActive,
    addWorkItemComment := fun _ => Except.ok 0 }

def wiSkip : WorkItem :=
  ⟨9, fun k => if k = stateKey then some ("Skip") else none⟩

/-- A client whose matching item sits in the skip-reopen state. -/
def clSkip : Client :=
  { queryByWiql := fun _ => Except.ok [9],
    getWorkItem := fun _ => Except.ok wiSkip,
    createWorkItem := fun _ => Except.ok wiSkip,
    updateWorkItem := fun _ => Except.ok wiSkip,
    addWorkItemComment := fun _ => Except.ok 0 }

def wiDone : WorkItem :=
  ⟨4, fun k => if k = stateKey then some ("Done") else none⟩

/-- A client whose matching item sits in the auto-resolve state. -/
def clDone : Client :=
  { queryByWiql := fun _ => Except.ok [4],
    getWorkItem := fun _ => Except.ok wiDone,
    createWorkItem := fun _ => Except.ok wiDone,
    updateWorkItem := fun _ => Except.ok wiDone,
    addWorkItemComment := fun _ => Except.ok 0 }

/-- A client whose search finds nothing. -/
def clNone : Client :=
  { queryByWiql := fun _ => Except.ok [],
    getWorkItem := fun _ => Except.error ("no such item"),
    createWorkItem := fun _ => Except.ok wiDup,
    updateWorkItem := fun _ => Except.ok wiDup,
    addWorkItemComment := fun _ => Except.ok 0 }

/-- A 200-character string (200 times the letter a). -/
def s200 : String := String.mk (List.replicate 200 (Char.ofNat 97))

/-- A template engine rendering everything to the 200-character string. -/
def tmplLong : Tmpl := fun _ => Except.ok s200

/-- A template engine failing on the description template of confPlain. -/
def tmplFailDesc : Tmpl :=
  fun s => if s = ("D") then Except.error ("boom") else Except.ok s

/-! ## Helper lemmas -/

theorem firing_ne_nil {l : List Alert} (h : firingAlerts l ≠ []) : l ≠ [] := by
  intro hl
  exact h (by simp [firingAlerts, hl])

theorem renderPriority_ok (tmpl : Tmpl) (conf : ReceiverConfig)
    (pops : List JsonPatchOperation) (h : renderPriority tmpl conf = Except.ok pops) :
    (conf.priority = ("") ∧ pops = []) ∨
      (conf.priority ≠ ("") ∧ ∃ v, tmpl conf.priority = Except.ok v ∧
        pops = [⟨OperationKind.Add, priorityPath, v⟩]) := by
  unfold renderPriority at h
  by_cases hp : conf.priority = ("")
  · rw [if_pos hp] at h
    exact Or.inl ⟨hp, by injection h with h2; exact h2.symm⟩
  · rw [if_neg hp] at h
    cases hv : tmpl conf.priority <;> rw [hv] at h
    · exact absurd h (by simp)
    · exact Or.inr ⟨hp, _, rfl, by injection h with h2; exact h2.symm⟩

theorem renderPriority_error (tmpl : Tmpl) (conf : ReceiverConfig) (e : String)
    (h : renderPriority tmpl conf = Except.error e) :
    conf.priority ≠ ("") ∧ ∃ e0, tmpl conf.priority = Except.error e0 ∧
      e = ("render priority: ") ++ e0 := by
  unfold renderPriority at h
  by_cases hp : conf.priority = ("")
  · rw [if_pos hp] at h
    exact absurd h (by simp)
  · rw [if_neg hp] at h
    cases hv : tmpl conf.priority <;> rw [hv] at h
    · exact ⟨hp, _, rfl, by injection h with h2; exact h2.symm⟩
    · exact absurd h (by simp)

theorem renderPriority_ok_of (tmpl : Tmpl) (conf : ReceiverConfig)
    (h : conf.priority = ("") ∨ ∃ v, tmpl conf.priority = Except.ok v) :
    ∃ pops, renderPriority tmpl conf = Except.ok pops := by
  unfold renderPriority
  by_cases hp : conf.priority = ("")
  · exact ⟨[], by rw [if_pos hp]⟩
  · obtain ⟨v, hv⟩ := h.resolve_left hp
    exact ⟨[⟨OperationKind.Add, priorityPath, v⟩], by rw [if_neg hp, hv]⟩

theorem renderFields_ok_mem (tmpl : Tmpl) (l : List (String × String))
    (ops : List JsonPatchOperation) (h : renderFields tmpl l = Except.ok ops) :
    ∀ op ∈ ops, op.op = OperationKind.Add ∧ ∃ kv ∈ l, op.path = resolveFieldPath kv.1 := by
  induction l generalizing ops with
  | nil =>
    unfold renderFields at h
    injection h with h2
    subst h2
    intro op hop
    exact absurd hop (by simp)
  | cons kv rest ih =>
    obtain ⟨key, value⟩ := kv
    unfold renderFields at h
    cases hv : tmpl value <;> rw [hv] at h
    · exact absurd h (by simp)
    · cases hr : renderFields tmpl rest <;> rw [hr] at h
      · exact absurd h (by simp)
      · injection h with h2
        subst h2
        intro op hop
        rcases List.mem_cons.mp hop with hop | hop
        · subst hop
          exact ⟨rfl, ⟨key, value⟩, List.mem_cons_self _ _, rfl⟩
        · obtain ⟨ho, kv2, hkv2, hp⟩ := ih _ hr op hop
          exact ⟨ho, kv2, List.mem_cons_of_mem _ hkv2, hp⟩

theorem renderFields_error (tmpl : Tmpl) (l : List (String × String)) (e : String)
    (h : renderFields tmpl l = Except.error e) :
    ∃ kv ∈ l, ∃ e0, tmpl kv.2 = Except.error e0 ∧
      e = ("render field ") ++ kv.1 ++ (": ") ++ e0 := by
  induction l with
  | nil =>
    unfold renderFields at h
    exact absurd h (by simp)
  | cons kv rest ih =>
    obtain ⟨key, value⟩ := kv
    unfold renderFields at h
    cases hv : tmpl value <;> rw [hv] at h
    · refine ⟨⟨key, value⟩, List.mem_cons_self _ _, _, hv, ?_⟩
      injection h with h2
      exact h2.symm
    · cases hr : renderFields tmpl rest <;> rw [hr] at h
      · injection h with h2
        subst h2
        obtain ⟨kv2, hkv2, e0, he0, he⟩ := ih hr
        exact ⟨kv2, List.mem_cons_of_mem _ hkv2, e0, he0, he⟩
      · exact absurd h (by simp)

theorem renderFields_ok_of (tmpl : Tmpl) (l : List (String × String))
    (h : ∀ kv ∈ l, ∃ v, tmpl kv.2 = Except.ok v) :
    ∃ ops, renderFields tmpl l = Except.ok ops := by
  induction l with
  | nil => exact ⟨[], rfl⟩
  | cons kv rest ih =>
    obtain ⟨key, value⟩ := kv
    obtain ⟨v, hv⟩ := h ⟨key, value⟩ (List.mem_cons_self _ _)
    obtain ⟨ops, hops⟩ := ih (fun kv2 hkv2 => h kv2 (List.mem_cons_of_mem _ hkv2))
    refine ⟨⟨OperationKind.Add, resolveFieldPath key, v⟩ :: ops, ?_⟩
    unfold renderFields
    rw [hv, hops]

theorem renderFields_ok_renders (tmpl : Tmpl) (l : List (String × String))
    (ops : List JsonPatchOperation) (h : renderFields tmpl l = Except.ok ops) :
    ∀ kv ∈ l, ∃ v, tmpl kv.2 = Except.ok v := by
  induction l generalizing ops with
  | nil =>
    intro kv hkv
    exact absurd hkv (by simp)
  | cons kv0 rest ih =>
    obtain ⟨key, value⟩ := kv0
    unfold renderFields at h
    cases hv : tmpl value <;> rw [hv] at h
    · exact absurd h (by simp)
    · cases hr : renderFields tmpl rest <;> rw [hr] at h
      · exact absurd h (by simp)
      · intro kv hkv
        rcases List.mem_cons.mp hkv with hkv | hkv
        · subst hkv
          exact ⟨_, hv⟩
        · exact ih _ hr kv hkv

theorem gen_decompose (tmpl : Tmpl) (conf : ReceiverConfig) (data : Data)
    (af : Bool) (doc : List JsonPatchOperation)
    (h : generateWorkItemDocument tmpl conf data af = Except.ok doc) :
    ∃ t0 d pops fops,
      tmpl conf.summary = Except.ok t0 ∧ tmpl conf.description = Except.ok d ∧
      renderPriority tmpl conf = Except.ok pops ∧
      renderFields tmpl conf.fields = Except.ok fops ∧
      doc = [⟨OperationKind.Add, titlePath, goTitle t0⟩,
             ⟨OperationKind.Add, descriptionPath, d⟩]
        ++ (if af ∧ data.alerts ≠ [] then
              [⟨OperationKind.Add, tagsPath, joinedFiringTags data⟩]
            else [])
        ++ pops ++ fops := by
  unfold generateWorkItemDocument at h
  cases hs : tmpl conf.summary <;> rw [hs] at h
  · exact absurd h (by simp)
  cases hd : tmpl conf.description <;> rw [hd] at h
  · exact absurd h (by simp)
  cases hp : renderPriority tmpl conf <;> rw [hp] at h
  · exact absurd h (by simp)
  cases hf : renderFields tmpl conf.fields <;> rw [hf] at h
  · exact absurd h (by simp)
  injection h with h2
  exact ⟨_, _, _, _, rfl, rfl, rfl, rfl, h2.symm⟩

theorem gen_all_add (tmpl : Tmpl) (conf : ReceiverConfig) (data : Data)
    (af : Bool) (doc : List JsonPatchOperation)
    (h : generateWorkItemDocument tmpl conf data af = Except.ok doc) :
    ∀ op ∈ doc, op.op = OperationKind.Add := by
  obtain ⟨t0, d, pops, fops, _, _, hp, hf, hdoc⟩ := gen_decompose tmpl conf data af doc h
  subst hdoc
  intro op hop
  simp only [List.append_assoc, List.mem_append, List.mem_cons, List.not_mem_nil,
    or_false] at hop
  rcases hop with (hop | hop) | hop | hop | hop
  · subst hop; rfl
  · subst hop; rfl
  · split at hop
    · simp only [List.mem_cons, List.not_mem_nil, or_false] at hop
      subst hop; rfl
    · exact absurd hop (by simp)
  · rcases renderPriority_ok tmpl conf pops hp with ⟨_, hpe⟩ | ⟨_, v, _, hpe⟩ <;> subst hpe
    · exact absurd hop (by simp)
    · simp only [List.mem_cons, List.not_mem_nil, or_false] at hop
      subst hop; rfl
  · exact (renderFields_ok_mem tmpl conf.fields fops hf op hop).1

theorem gen_paths_false (tmpl : Tmpl) (conf : ReceiverConfig) (data : Data)
    (doc : List JsonPatchOperation)
    (h : generateWorkItemDocument tmpl conf data false = Except.ok doc) :
    ∀ op ∈ doc, op.path = titlePath ∨ op.path = descriptionPath ∨
      op.path = priorityPath ∨ ∃ kv ∈ conf.fields, op.path = resolveFieldPath kv.1 := by
  obtain ⟨t0, d, pops, fops, _, _, hp, hf, hdoc⟩ := gen_decompose tmpl conf data false doc h
  subst hdoc
  intro op hop
  simp only [Bool.false_eq_true, false_and, if_false, List.append_assoc, List.nil_append,
    List.mem_append, List.mem_cons, List.not_mem_nil, or_false] at hop
  rcases hop with (hop | hop) | hop | hop
  · subst hop; exact Or.inl rfl
  · subst hop; exact Or.inr (Or.inl rfl)
  · rcases renderPriority_ok tmpl conf pops hp with ⟨_, hpe⟩ | ⟨_, v, _, hpe⟩ <;> subst hpe
    · exact absurd hop (by simp)
    · simp only [List.mem_cons, List.not_mem_nil, or_false] at hop
      subst hop
      exact Or.inr (Or.inr (Or.inl rfl))
  · obtain ⟨_, kv, hkv, hpath⟩ := renderFields_ok_mem tmpl conf.fields fops hf op hop
    exact Or.inr (Or.inr (Or.inr ⟨kv, hkv, hpath⟩))

theorem gen_error (tmpl : Tmpl) (conf : ReceiverConfig) (data : Data) (af : Bool)
    (e : String) (h : generateWorkItemDocument tmpl conf data af = Except.error e) :
    IdentifiesFailure tmpl conf e := by
  unfold generateWorkItemDocument at h
  cases hs : tmpl conf.summary <;> rw [hs] at h
  · refine Or.inl ⟨_, hs, ?_⟩
    injection h with h2
    exact h2.symm
  cases hd : tmpl conf.description <;> rw [hd] at h
  · refine Or.inr (Or.inl ⟨_, hd, ?_⟩)
    injection h with h2
    exact h2.symm
  cases hp : renderPriority tmpl conf <;> rw [hp] at h
  · obtain ⟨hne, e0, he0, hee⟩ := renderPriority_error tmpl conf _ hp
    injection h with h2
    exact Or.inr (Or.inr (Or.inl ⟨hne, e0, he0, h2 ▸ hee⟩))
  cases hf : renderFields tmpl conf.fields <;> rw [hf] at h
  · obtain ⟨kv, hkv, e0, he0, hee⟩ := renderFields_error tmpl conf.fields _ hf
    injection h with h2
    exact Or.inr (Or.inr (Or.inr ⟨kv, hkv, e0, he0, h2 ▸ hee⟩))
  exact absurd h (by simp)

theorem gen_ok_of (tmpl : Tmpl) (conf : ReceiverConfig) (data : Data) (af : Bool)
    (h : RendersOk tmpl conf) :
    ∃ doc, generateWorkItemDocument tmpl conf data af = Except.ok doc := by
  obtain ⟨⟨t0, hs⟩, ⟨d, hd⟩, hp, hf⟩ := h
  obtain ⟨pops, hpops⟩ := renderPriority_ok_of tmpl conf hp
  obtain ⟨fops, hfops⟩ := renderFields_ok_of tmpl conf.fields hf
  refine ⟨[⟨OperationKind.Add, titlePath, goTitle t0⟩,
      ⟨OperationKind.Add, descriptionPath, d⟩]
    ++ (if af ∧ data.alerts ≠ [] then
          [⟨OperationKind.Add, tagsPath, joinedFiringTags data⟩]
        else [])
    ++ pops ++ fops, ?_⟩
  unfold generateWorkItemDocument
  rw [hs, hd, hpops, hfops]

/-! ## Path lemmas for Notify -/

theorem find_found (c : Client) (data : Data) (project : String) (i : Int)
    (ids : List Int) (wi : WorkItem)
    (halerts : data.alerts ≠ [])
    (hq : c.queryByWiql (buildWiql data project) = Except.ok (i :: ids))
    (hget : c.getWorkItem i = Except.ok wi) :
    findWorkItem c data project =
      (Except.ok (some wi), [Call.query (buildWiql data project), Call.getItem i]) := by
  unfold findWorkItem
  rw [if_neg halerts]
  simp only [hq, hget]

theorem find_none (c : Client) (data : Data) (project : String)
    (halerts : data.alerts ≠ [])
    (hq : c.queryByWiql (buildWiql data project) = Except.ok []) :
    findWorkItem c data project =
      (Except.ok none, [Call.query (buildWiql data project)]) := by
  unfold findWorkItem
  rw [if_neg halerts]
  simp only [hq]

theorem notify_update_path (c : Client) (tmpl : Tmpl) (conf : ReceiverConfig)
    (data : Data) (project : String) (i : Int) (ids : List Int) (wi : WorkItem)
    (hproj : tmpl conf.project = Except.ok project)
    (hfir : firingAlerts data.alerts ≠ [])
    (hq : c.queryByWiql (buildWiql data project) = Except.ok (i :: ids))
    (hget : c.getWorkItem i = Except.ok wi) :
    Notify c tmpl conf data =
      ((updateWorkItem c tmpl conf data project wi).1,
       Call.query (buildWiql data project) :: Call.getItem i ::
         (updateWorkItem c tmpl conf data project wi).2) := by
  have hfind := find_found c data project i ids wi (firing_ne_nil hfir) hq hget
  unfold Notify
  rw [hproj]
  simp only [hfind, if_pos hfir, List.cons_append, List.nil_append]

theorem notify_create_path (c : Client) (tmpl : Tmpl) (conf : ReceiverConfig)
    (data : Data) (project : String)
    (hproj : tmpl conf.project = Except.ok project)
    (hfir : firingAlerts data.alerts ≠ [])
    (hq : c.queryByWiql (buildWiql data project) = Except.ok []) :
    Notify c tmpl conf data =
      ((createWorkItem c tmpl conf data project).1,
       Call.query (buildWiql data project) ::
         (createWorkItem c tmpl conf data project).2) := by
  have hfind := find_none c data project (firing_ne_nil hfir) hq
  unfold Notify
  rw [hproj]
  simp only [hfind, if_pos hfir, List.cons_append, List.nil_append]

theorem notify_resolve_path (c : Client) (tmpl : Tmpl) (conf : ReceiverConfig)
    (data : Data) (project : String) (ar : AutoResolve)
    (hproj : tmpl conf.project = Except.ok project)
    (hfir0 : firingAlerts data.alerts = [])
    (har : conf.autoResolve = some ar) :
    Notify c tmpl conf data = resolveWorkItem c tmpl conf data project := by
  unfold Notify
  rw [hproj]
  simp [hfir0, har]

/-! ## Call-shape lemmas for the mutation operations -/

theorem addComment_calls (c : Client) (wi : WorkItem) :
    updateArgsOf (addComment c wi).2 = [] ∧ createArgsOf (addComment c wi).2 = [] := by
  unfold addComment
  cases hteam : wi.fields teamProjectKey
  · exact ⟨rfl, rfl⟩
  case some p =>
    simp only []
    cases hac : c.addWorkItemComment ⟨("Issue updated with new alert data"), p, wi.id⟩ <;>
      simp [hac, updateArgsOf, createArgsOf]

theorem updateWorkItem_skip (c : Client) (tmpl : Tmpl) (conf : ReceiverConfig)
    (data : Data) (project : String) (wi : WorkItem)
    (hskip : wi.fields stateKey = some conf.skipReopenState) :
    updateWorkItem c tmpl conf data project wi = (Except.ok (), []) := by
  unfold updateWorkItem
  rw [if_pos hskip]

theorem updateWorkItem_calls (c : Client) (tmpl : Tmpl) (conf : ReceiverConfig)
    (data : Data) (project : String) (wi : WorkItem) (doc0 : List JsonPatchOperation)
    (hskip : ¬ wi.fields stateKey = some conf.skipReopenState)
    (hgen : generateWorkItemDocument tmpl conf data false = Except.ok doc0) :
    ∃ rest, (updateWorkItem c tmpl conf data project wi).2 =
        Call.update ⟨updateDocument conf data wi doc0, wi.id, some project⟩ :: rest ∧
      updateArgsOf rest = [] := by
  unfold updateWorkItem
  rw [if_neg hskip]
  simp only [hgen]
  cases hcu : c.updateWorkItem ⟨updateDocument conf data wi doc0, wi.id, some project⟩ <;>
    simp only [hcu]
  · exact ⟨[], rfl, rfl⟩
  · by_cases hcom : conf.updateInComment = some true
    · rw [if_pos hcom]
      cases hac : (addComment c wi).1 <;> simp only [hac]
      · exact ⟨(addComment c wi).2, rfl, (addComment_calls c wi).1⟩
      · exact ⟨(addComment c wi).2, rfl, (addComment_calls c wi).1⟩
    · rw [if_neg hcom]
      exact ⟨[], rfl, rfl⟩

theorem updateWorkItem_no_create (c : Client) (tmpl : Tmpl) (conf : ReceiverConfig)
    (data : Data) (project : String) (wi : WorkItem) :
    createArgsOf (updateWorkItem c tmpl conf data project wi).2 = [] := by
  by_cases hskip : wi.fields stateKey = some conf.skipReopenState
  · rw [updateWorkItem_skip c tmpl conf data project wi hskip]
    rfl
  · unfold updateWorkItem
    rw [if_neg hskip]
    cases hgen : generateWorkItemDocument tmpl conf data false <;> simp only [hgen]
    · rfl
    next doc =>
      cases hcu : c.updateWorkItem ⟨updateDocument conf data wi doc, wi.id, some project⟩ <;>
        simp only [hcu]
      · simp [createArgsOf]
      · by_cases hcom : conf.updateInComment = some true
        · rw [if_pos hcom]
          cases hac : (addComment c wi).1 <;> simp only [hac] <;>
            simp [createArgsOf, (addComment_calls c wi).2]
        · rw [if_neg hcom]
          simp [createArgsOf]

theorem createWorkItem_calls (c : Client) (tmpl : Tmpl) (conf : ReceiverConfig)
    (data : Data) (project : String) (ty : String) (doc : List JsonPatchOperation)
    (htype : tmpl conf.issueType = Except.ok ty)
    (hgen : generateWorkItemDocument tmpl conf data true = Except.ok doc) :
    (createWorkItem c tmpl conf data project).2 = [Call.create ⟨doc, project, ty⟩] := by
  unfold createWorkItem
  rw [htype]
  simp only [hgen]
  cases hcc : c.createWorkItem ⟨doc, project, ty⟩ <;> simp [hcc]

theorem resolveWorkItem_calls (c : Client) (tmpl : Tmpl) (conf : ReceiverConfig)
    (data : Data) (project : String) (i : Int) (ids : List Int) (wi : WorkItem)
    (ar : AutoResolve) (doc0 : List JsonPatchOperation)
    (halerts : data.alerts ≠ [])
    (hq : c.queryByWiql (buildWiql data project) = Except.ok (i :: ids))
    (hget : c.getWorkItem i = Except.ok wi)
    (har : conf.autoResolve = some ar)
    (hstate : ar.state ≠ (""))
    (hgen : generateWorkItemDocument tmpl conf data false = Except.ok doc0) :
    (resolveWorkItem c tmpl conf data project).2 =
      [Call.query (buildWiql data project), Call.getItem i,
       Call.update ⟨doc0 ++ [⟨OperationKind.Replace, statePath, ar.state⟩], wi.id, none⟩] := by
  have hfind := find_found c data project i ids wi halerts hq hget
  unfold resolveWorkItem
  simp only [hfind, har, hgen, if_pos hstate]
  cases hcu : c.updateWorkItem
      ⟨doc0 ++ [⟨OperationKind.Replace, statePath, ar.state⟩], wi.id, none⟩ <;>
    simp [hcu]

/-! ## Support lemmas for the claims -/

theorem string_ext {a b : String} (h : a.data = b.data) : a = b := by
  obtain ⟨ad⟩ := a
  obtain ⟨bd⟩ := b
  rw [show ad = bd from h]

theorem string_data_append (a b : String) : (a ++ b).data = a.data ++ b.data := by
  obtain ⟨ad⟩ := a
  obtain ⟨bd⟩ := b
  rfl

theorem string_append_cancel {s a b : String} (h : s ++ a = s ++ b) : a = b := by
  apply string_ext
  have h2 : s.data ++ a.data = s.data ++ b.data := by
    rw [← string_data_append, ← string_data_append, h]
  exact List.append_cancel_left h2

theorem updateDocument_tags_mem (conf : ReceiverConfig) (data : Data)
    (wi : WorkItem) (doc : List JsonPatchOperation) (halerts : data.alerts ≠ []) :
    (⟨OperationKind.Replace, tagsPath, joinedAllTags data⟩ : JsonPatchOperation) ∈
      updateDocument conf data wi doc := by
  unfold updateDocument
  rw [if_pos halerts]
  cases conf.autoResolve with
  | none => simp
  | some ar =>
    by_cases hse : wi.fields stateKey = some ar.state
    · simp [hse]
    · simp [hse]

theorem updateDocument_state_iff (conf : ReceiverConfig) (data : Data)
    (wi : WorkItem) (doc : List JsonPatchOperation) (ar : AutoResolve)
    (har : conf.autoResolve = some ar)
    (hall : ∀ op ∈ doc, op.op = OperationKind.Add) :
    (∃ op ∈ updateDocument conf data wi doc, op.op = OperationKind.Replace ∧
        op.path = statePath ∧ op.value = conf.reopenState) ↔
      wi.fields stateKey = some ar.state := by
  have hdoc1 : ∀ op ∈ (if data.alerts ≠ [] then
      doc ++ [⟨OperationKind.Replace, tagsPath, joinedAllTags data⟩] else doc),
      ¬(op.op = OperationKind.Replace ∧ op.path = statePath ∧
        op.value = conf.reopenState) := by
    intro op hop hcon
    split at hop
    · rcases List.mem_append.mp hop with hop | hop
      · rw [hall op hop] at hcon
        exact absurd hcon.1 (by simp)
      · simp only [List.mem_cons, List.not_mem_nil, or_false] at hop
        subst hop
        exact absurd hcon.2.1 (show ¬ tagsPath = statePath by decide)
    · rw [hall op hop] at hcon
      exact absurd hcon.1 (by simp)
  by_cases hse : wi.fields stateKey = some ar.state
  · refine iff_of_true ⟨⟨OperationKind.Replace, statePath, conf.reopenState⟩, ?_, rfl, rfl, rfl⟩ hse
    simp [updateDocument, har, hse]
  · refine iff_of_false ?_ hse
    rintro ⟨op, hop, hcon⟩
    rw [show updateDocument conf data wi doc =
        (if data.alerts ≠ [] then
          doc ++ [⟨OperationKind.Replace, tagsPath, joinedAllTags data⟩]
        else doc) from by simp [updateDocument, har, hse]] at hop
    exact hdoc1 op hop hcon

theorem resolved_tag_not_in_firing (alerts : List Alert) (a : Alert)
    (_hnf : a.status ≠ AlertFiring)
    (hdistinct : ∀ b ∈ alerts, b.status = AlertFiring → b.fingerprint ≠ a.fingerprint) :
    ("Fingerprint:") ++ a.fingerprint ∉ firingFingerprintTags alerts := by
  intro hmem
  unfold firingFingerprintTags fingerprintTags firingAlerts at hmem
  simp only [List.mem_map, List.mem_filter, decide_eq_true_eq] at hmem
  obtain ⟨b, ⟨hb, hbf⟩, heq⟩ := hmem
  exact hdistinct b hb hbf (string_append_cancel heq)

/-! ## The claims -/

/-- C1 (counterexample): with two matching item ids returned by the search,
the find operation does NOT treat the result as no match: it returns the
first item and no error, and with a firing alert present the reconciler
issues one update call and zero create calls, so the Create path is not
taken. -/
theorem C1_duplicate_no_match_cex :
    (findWorkItem clDup dataFiring ("TestProject")).1 = Except.ok (some wiDup) ∧
    createArgsOf (Notify clDup tmplId confPlain dataFiring).2 = [] ∧
    (updateArgsOf (Notify clDup tmplId confPlain dataFiring).2).length = 1 :=
  ⟨rfl, by decide, by decide⟩

/-- C1 (amended): when the work-item search returns more than one matching
item id, the Reconciler logs and proceeds with the FIRST returned id: the
find operation returns that item and no error, and with firing alerts
present the Update path is taken instead of Create (zero create calls). -/
theorem C1_duplicate_first_match (c : Client) (tmpl : Tmpl) (conf : ReceiverConfig)
    (data : Data) (project : String) (i j : Int) (ids : List Int) (wi : WorkItem)
    (hproj : tmpl conf.project = Except.ok project)
    (hfir : firingAlerts data.alerts ≠ [])
    (hq : c.queryByWiql (buildWiql data project) = Except.ok (i :: j :: ids))
    (hget : c.getWorkItem i = Except.ok wi) :
    (findWorkItem c data project).1 = Except.ok (some wi) ∧
    createArgsOf (Notify c tmpl conf data).2 = [] ∧
    (Notify c tmpl conf data).2 =
      Call.query (buildWiql data project) :: Call.getItem i ::
        (updateWorkItem c tmpl conf data project wi).2 := by
  have hfind := find_found c data project i (j :: ids) wi (firing_ne_nil hfir) hq hget
  have hpath := notify_update_path c tmpl conf data project i (j :: ids) wi hproj hfir hq hget
  refine ⟨by rw [hfind], ?_, by rw [hpath]⟩
  rw [hpath]
  simp [createArgsOf, updateWorkItem_no_create c tmpl conf data project wi]

/-- C1 (witness): the amended behavior at the concrete duplicate-match
scenario. -/
theorem C1_duplicate_first_match_witness :
    (findWorkItem clDup dataFiring ("TestProject")).1 = Except.ok (some wiDup) ∧
    createArgsOf (Notify clDup tmplId confPlain dataFiring).2 = [] ∧
    (Notify clDup tmplId confPlain dataFiring).2 =
      Call.query (buildWiql dataFiring ("TestProject")) :: Call.getItem 1 ::
        (updateWorkItem clDup tmplId confPlain dataFiring ("TestProject") wiDup).2 :=
  C1_duplicate_first_match clDup tmplId confPlain dataFiring ("TestProject") 1 2 [] wiDup
    rfl (by decide) rfl rfl

/-- C2 (counterexample): a batch with zero firing alerts, autoResolve
configured, a matching work item whose State is not the skip-reopen state:
the claim's premises hold, the reconciler issues exactly one update call,
but that update's patch document contains no Replace operation on the tags
field at all. -/
theorem C2_update_tags_cex :
    ((findWorkItem clOne dataResolved ("TestProject")).1 = Except.ok (some wiActive) ∧
      ¬ wiActive.fields stateKey = some confAuto.skipReopenState) ∧
    (updateArgsOf (Notify clOne tmplId confAuto dataResolved).2).length = 1 ∧
    ∀ args ∈ updateArgsOf (Notify clOne tmplId confAuto dataResolved).2,
      ∀ op ∈ args.document,
        ¬(op.op = OperationKind.Replace ∧ op.path = tagsPath) :=
  ⟨⟨rfl, by decide⟩, by decide, by decide⟩

/-- C2 (amended): for every batch with at least one firing alert, a matching
work item whose State differs from the skip-reopen state, and a successfully
generated patch document, the Reconciler issues exactly one update call, and
its patch document contains a Tags operation with op Replace whose value is
the fingerprint tags of ALL alerts of the batch (firing and resolved) joined
with "; ". -/
theorem C2_update_tags_replace (c : Client) (tmpl : Tmpl) (conf : ReceiverConfig)
    (data : Data) (project : String) (i : Int) (ids : List Int) (wi : WorkItem)
    (doc0 : List JsonPatchOperation)
    (hproj : tmpl conf.project = Except.ok project)
    (hfir : firingAlerts data.alerts ≠ [])
    (hq : c.queryByWiql (buildWiql data project) = Except.ok (i :: ids))
    (hget : c.getWorkItem i = Except.ok wi)
    (hskip : ¬ wi.fields stateKey = some conf.skipReopenState)
    (hgen : generateWorkItemDocument tmpl conf data false = Except.ok doc0) :
    ∃ args, updateArgsOf (Notify c tmpl conf data).2 = [args] ∧
      (⟨OperationKind.Replace, tagsPath, joinedAllTags data⟩ : JsonPatchOperation) ∈
        args.document := by
  have hpath := notify_update_path c tmpl conf data project i ids wi hproj hfir hq hget
  obtain ⟨rest, hrest, hupd⟩ := updateWorkItem_calls c tmpl conf data project wi doc0 hskip hgen
  refine ⟨⟨updateDocument conf data wi doc0, wi.id, some project⟩, ?_,
    updateDocument_tags_mem conf data wi doc0 (firing_ne_nil hfir)⟩
  rw [hpath]
  show updateArgsOf (Call.query (buildWiql data project) :: Call.getItem i ::
    (updateWorkItem c tmpl conf data project wi).2) = _
  rw [show updateArgsOf (Call.query (buildWiql data project) :: Call.getItem i ::
      (updateWorkItem c tmpl conf data project wi).2) =
      updateArgsOf (updateWorkItem c tmpl conf data project wi).2 from rfl]
  rw [hrest]
  show (⟨updateDocument conf data wi doc0, wi.id, some project⟩ : UpdateWorkItemArgs) ::
    updateArgsOf rest = _
  rw [hupd]

/-- C2 (witness): the amended behavior at a concrete scenario with one
firing and one resolved alert and a matching Active item. -/
theorem C2_update_tags_replace_witness :
    ∃ args, updateArgsOf (Notify clOne tmplId confPlain dataMixed).2 = [args] ∧
      (⟨OperationKind.Replace, tagsPath, joinedAllTags dataMixed⟩ : JsonPatchOperation) ∈
        args.document :=
  C2_update_tags_replace clOne tmplId confPlain dataMixed ("TestProject") 7 [] wiActive
    [⟨OperationKind.Add, titlePath, ("S")⟩, ⟨OperationKind.Add, descriptionPath, ("D")⟩]
    rfl (by decide) rfl rfl (by decide) rfl

/-- C5: a matched work item whose State equals the receiver's configured
skip-reopen state makes the Update path perform no mutation: zero update
calls, zero create calls, zero comment calls, and a nil error. -/
theorem C5_skip_state_no_mutation (c : Client) (tmpl : Tmpl) (conf : ReceiverConfig)
    (data : Data) (project : String) (i : Int) (ids : List Int) (wi : WorkItem)
    (hproj : tmpl conf.project = Except.ok project)
    (hfir : firingAlerts data.alerts ≠ [])
    (hq : c.queryByWiql (buildWiql data project) = Except.ok (i :: ids))
    (hget : c.getWorkItem i = Except.ok wi)
    (hskip : wi.fields stateKey = some conf.skipReopenState) :
    (Notify c tmpl conf data).1 = Except.ok () ∧
    updateArgsOf (Notify c tmpl conf data).2 = [] ∧
    createArgsOf (Notify c tmpl conf data).2 = [] ∧
    commentArgsOf (Notify c tmpl conf data).2 = [] := by
  rw [notify_update_path c tmpl conf data project i ids wi hproj hfir hq hget,
    updateWorkItem_skip c tmpl conf data project wi hskip]
  exact ⟨rfl, rfl, rfl, rfl⟩

/-- C5 (witness): the skip-state behavior at a concrete matched item in
state Skip. -/
theorem C5_skip_state_no_mutation_witness :
    (Notify clSkip tmplId confPlain dataFiring).1 = Except.ok () ∧
    updateArgsOf (Notify clSkip tmplId confPlain dataFiring).2 = [] ∧
    createArgsOf (Notify clSkip tmplId confPlain dataFiring).2 = [] ∧
    commentArgsOf (Notify clSkip tmplId confPlain dataFiring).2 = [] :=
  C5_skip_state_no_mutation clSkip tmplId confPlain dataFiring ("TestProject") 9 [] wiSkip
    rfl (by decide) rfl rfl rfl

/-- C10: a batch with an empty alerts list, on a receiver with autoResolve
configured, makes Notify fail: the find step errors with "no alerts in data"
and no remote query, create or update call is made. -/
theorem C10_empty_alerts_error (c : Client) (tmpl : Tmpl) (conf : ReceiverConfig)
    (data : Data) (project : String) (ar : AutoResolve)
    (hempty : data.alerts = [])
    (har : conf.autoResolve = some ar)
    (hproj : tmpl conf.project = Except.ok project) :
    (Notify c tmpl conf data).1 = Except.error ("find work item: no alerts in data") ∧
    (Notify c tmpl conf data).2 = [] := by
  have hfir0 : firingAlerts data.alerts = [] := by simp [firingAlerts, hempty]
  rw [notify_resolve_path c tmpl conf data project ar hproj hfir0 har]
  unfold resolveWorkItem findWorkItem
  rw [if_pos hempty]
  exact ⟨rfl, rfl⟩

/-- C10 (witness): the empty-batch error at a concrete receiver with
autoResolve configured. -/
theorem C10_empty_alerts_error_witness :
    (Notify clNone tmplId confAuto dataEmpty).1 =
      Except.error ("find work item: no alerts in data") ∧
    (Notify clNone tmplId confAuto dataEmpty).2 = [] :=
  C10_empty_alerts_error clNone tmplId confAuto dataEmpty ("TestProject") ⟨"Done"⟩
    rfl rfl rfl

/-- The single update call of the Update path and its document. -/
theorem notify_update_args (c : Client) (tmpl : Tmpl) (conf : ReceiverConfig)
    (data : Data) (project : String) (i : Int) (ids : List Int) (wi : WorkItem)
    (doc0 : List JsonPatchOperation)
    (hproj : tmpl conf.project = Except.ok project)
    (hfir : firingAlerts data.alerts ≠ [])
    (hq : c.queryByWiql (buildWiql data project) = Except.ok (i :: ids))
    (hget : c.getWorkItem i = Except.ok wi)
    (hskip : ¬ wi.fields stateKey = some conf.skipReopenState)
    (hgen : generateWorkItemDocument tmpl conf data false = Except.ok doc0) :
    updateArgsOf (Notify c tmpl conf data).2 =
      [⟨updateDocument conf data wi doc0, wi.id, some project⟩] := by
  have hpath := notify_update_path c tmpl conf data project i ids wi hproj hfir hq hget
  obtain ⟨rest, hrest, hupd⟩ := updateWorkItem_calls c tmpl conf data project wi doc0 hskip hgen
  rw [hpath]
  show updateArgsOf (Call.query (buildWiql data project) :: Call.getItem i ::
    (updateWorkItem c tmpl conf data project wi).2) = _
  rw [show updateArgsOf (Call.query (buildWiql data project) :: Call.getItem i ::
      (updateWorkItem c tmpl conf data project wi).2) =
      updateArgsOf (updateWorkItem c tmpl conf data project wi).2 from rfl]
  rw [hrest]
  show (⟨updateDocument conf data wi doc0, wi.id, some project⟩ : UpdateWorkItemArgs) ::
    updateArgsOf rest = _
  rw [hupd]

/-- C3: a batch with at least one firing alert and no matching work item
yields exactly one create call and zero update calls; the created patch
document has exactly one Tags operation, whose value is the firing
fingerprint tags joined with "; ", and a resolved-only fingerprint tag is
not among the firing fingerprint tags. -/
theorem C3_create_firing_tags (c : Client) (tmpl : Tmpl) (conf : ReceiverConfig)
    (data : Data) (project : String) (ty : String) (doc : List JsonPatchOperation)
    (hproj : tmpl conf.project = Except.ok project)
    (hfir : firingAlerts data.alerts ≠ [])
    (hq : c.queryByWiql (buildWiql data project) = Except.ok [])
    (htype : tmpl conf.issueType = Except.ok ty)
    (hgen : generateWorkItemDocument tmpl conf data true = Except.ok doc)
    (hfields : ∀ kv ∈ conf.fields, resolveFieldPath kv.1 ≠ tagsPath) :
    createArgsOf (Notify c tmpl conf data).2 = [⟨doc, project, ty⟩] ∧
    updateArgsOf (Notify c tmpl conf data).2 = [] ∧
    doc.filter (fun op => op.path == tagsPath) =
      [⟨OperationKind.Add, tagsPath, joinedFiringTags data⟩] ∧
    ∀ a ∈ data.alerts, a.status ≠ AlertFiring →
      (∀ b ∈ data.alerts, b.status = AlertFiring → b.fingerprint ≠ a.fingerprint) →
      ("Fingerprint:") ++ a.fingerprint ∉ firingFingerprintTags data.alerts := by
  have hpath := notify_create_path c tmpl conf data project hproj hfir hq
  have hcalls := createWorkItem_calls c tmpl conf data project ty doc htype hgen
  refine ⟨?_, ?_, ?_, ?_⟩
  · rw [hpath]
    show createArgsOf (Call.query (buildWiql data project) ::
      (createWorkItem c tmpl conf data project).2) = _
    rw [show createArgsOf (Call.query (buildWiql data project) ::
        (createWorkItem c tmpl conf data project).2) =
        createArgsOf (createWorkItem c tmpl conf data project).2 from rfl]
    rw [hcalls]
    rfl
  · rw [hpath]
    show updateArgsOf (Call.query (buildWiql data project) ::
      (createWorkItem c tmpl conf data project).2) = _
    rw [show updateArgsOf (Call.query (buildWiql data project) ::
        (createWorkItem c tmpl conf data project).2) =
        updateArgsOf (createWorkItem c tmpl conf data project).2 from rfl]
    rw [hcalls]
    rfl
  · obtain ⟨t0, d, pops, fops, hs, hd, hp, hf, hdeq⟩ :=
      gen_decompose tmpl conf data true doc hgen
    subst hdeq
    rw [if_pos (show (true = true) ∧ data.alerts ≠ [] from ⟨rfl, firing_ne_nil hfir⟩)]
    have h1 : (titlePath == tagsPath) = false := by decide
    have h2 : (descriptionPath == tagsPath) = false := by decide
    have h3 : (tagsPath == tagsPath) = true := by decide
    have h4 : (priorityPath == tagsPath) = false := by decide
    have hfop : fops.filter (fun op => op.path == tagsPath) = [] := by
      rw [List.filter_eq_nil_iff]
      intro op hop
      obtain ⟨_, kv, hkv, hpath2⟩ := renderFields_ok_mem tmpl conf.fields fops hf op hop
      simp [hpath2, hfields kv hkv]
    have hpop : pops.filter (fun op => op.path == tagsPath) = [] := by
      rcases renderPriority_ok tmpl conf pops hp with ⟨_, hpe⟩ | ⟨_, v, _, hpe⟩ <;> subst hpe
      · rfl
      · simp [h4]
    simp [List.filter_append, List.filter_cons, h1, h2, h3, hfop, hpop]
  · intro a _ha hnf hdist
    exact resolved_tag_not_in_firing data.alerts a hnf hdist

/-- C3 (witness): the create behavior at a concrete batch with one firing
and one resolved alert and no matching item. -/
theorem C3_create_firing_tags_witness :
    createArgsOf (Notify clNone tmplId confPlain dataMixed).2 =
      [⟨[⟨OperationKind.Add, titlePath, ("S")⟩,
         ⟨OperationKind.Add, descriptionPath, ("D")⟩,
         ⟨OperationKind.Add, tagsPath, joinedFiringTags dataMixed⟩],
        ("TestProject"), ("Bug")⟩] ∧
    updateArgsOf (Notify clNone tmplId confPlain dataMixed).2 = [] ∧
    ([⟨OperationKind.Add, titlePath, ("S")⟩,
      ⟨OperationKind.Add, descriptionPath, ("D")⟩,
      ⟨OperationKind.Add, tagsPath, joinedFiringTags dataMixed⟩] :
        List JsonPatchOperation).filter (fun op => op.path == tagsPath) =
      [⟨OperationKind.Add, tagsPath, joinedFiringTags dataMixed⟩] ∧
    ∀ a ∈ dataMixed.alerts, a.status ≠ AlertFiring →
      (∀ b ∈ dataMixed.alerts, b.status = AlertFiring → b.fingerprint ≠ a.fingerprint) →
      ("Fingerprint:") ++ a.fingerprint ∉ firingFingerprintTags dataMixed.alerts :=
  C3_create_firing_tags clNone tmplId confPlain dataMixed ("TestProject") ("Bug")
    [⟨OperationKind.Add, titlePath, ("S")⟩,
     ⟨OperationKind.Add, descriptionPath, ("D")⟩,
     ⟨OperationKind.Add, tagsPath, joinedFiringTags dataMixed⟩]
    rfl (by decide) rfl rfl rfl (by decide)

/-- C4: a batch with zero firing alerts (but at least one alert), autoResolve
configured with a non-empty state, and a matching work item yields exactly
one update call and zero create calls; the update document carries no
tags-field operation and ends with a Replace of State to the auto-resolve
state. -/
theorem C4_resolve_state_replace (c : Client) (tmpl : Tmpl) (conf : ReceiverConfig)
    (data : Data) (project : String) (i : Int) (ids : List Int) (wi : WorkItem)
    (ar : AutoResolve) (doc0 : List JsonPatchOperation)
    (hproj : tmpl conf.project = Except.ok project)
    (hfir0 : firingAlerts data.alerts = [])
    (halerts : data.alerts ≠ [])
    (har : conf.autoResolve = some ar)
    (hstate : ar.state ≠ (""))
    (hq : c.queryByWiql (buildWiql data project) = Except.ok (i :: ids))
    (hget : c.getWorkItem i = Except.ok wi)
    (hgen : generateWorkItemDocument tmpl conf data false = Except.ok doc0)
    (hfields : ∀ kv ∈ conf.fields, resolveFieldPath kv.1 ≠ tagsPath) :
    updateArgsOf (Notify c tmpl conf data).2 =
      [⟨doc0 ++ [⟨OperationKind.Replace, statePath, ar.state⟩], wi.id, none⟩] ∧
    createArgsOf (Notify c tmpl conf data).2 = [] ∧
    (∀ op ∈ doc0 ++ [⟨OperationKind.Replace, statePath, ar.state⟩],
      ¬ op.path = tagsPath) ∧
    (doc0 ++ ([⟨OperationKind.Replace, statePath, ar.state⟩] :
        List JsonPatchOperation)).getLast? =
      some (⟨OperationKind.Replace, statePath, ar.state⟩ : JsonPatchOperation) := by
  have hpath := notify_resolve_path c tmpl conf data project ar hproj hfir0 har
  have hcalls := resolveWorkItem_calls c tmpl conf data project i ids wi ar doc0
    halerts hq hget har hstate hgen
  refine ⟨?_, ?_, ?_, ?_⟩
  · rw [hpath, hcalls]
    rfl
  · rw [hpath, hcalls]
    rfl
  · intro op hop
    rcases List.mem_append.mp hop with hop | hop
    · rcases gen_paths_false tmpl conf data doc0 hgen op hop with h | h | h | ⟨kv, hkv, h⟩
      · rw [h]; decide
      · rw [h]; decide
      · rw [h]; decide
      · rw [h]; exact hfields kv hkv
    · simp only [List.mem_cons, List.not_mem_nil, or_false] at hop
      subst hop
      exact (show ¬ statePath = tagsPath by decide)
  · exact List.getLast?_concat _

/-- C4 (witness): the resolve behavior at a concrete all-resolved batch with
a matching Active item. -/
theorem C4_resolve_state_replace_witness :
    updateArgsOf (Notify clOne tmplId confAuto dataResolved).2 =
      [⟨[⟨OperationKind.Add, titlePath, ("S")⟩,
         ⟨OperationKind.Add, descriptionPath, ("D")⟩]
          ++ [⟨OperationKind.Replace, statePath, ("Done")⟩], wiActive.id, none⟩] ∧
    createArgsOf (Notify clOne tmplId confAuto dataResolved).2 = [] ∧
    (∀ op ∈ ([⟨OperationKind.Add, titlePath, ("S")⟩,
        ⟨OperationKind.Add, descriptionPath, ("D")⟩] : List JsonPatchOperation)
        ++ [⟨OperationKind.Replace, statePath, ("Done")⟩],
      ¬ op.path = tagsPath) ∧
    (([⟨OperationKind.Add, titlePath, ("S")⟩,
       ⟨OperationKind.Add, descriptionPath, ("D")⟩] : List JsonPatchOperation)
      ++ ([⟨OperationKind.Replace, statePath, ("Done")⟩] :
        List JsonPatchOperation)).getLast? =
      some (⟨OperationKind.Replace, statePath, ("Done")⟩ : JsonPatchOperation) :=
  C4_resolve_state_replace clOne tmplId confAuto dataResolved ("TestProject") 7 [] wiActive
    (⟨"Done"⟩ : AutoResolve)
    [⟨OperationKind.Add, titlePath, ("S")⟩, ⟨OperationKind.Add, descriptionPath, ("D")⟩]
    rfl rfl (by decide) rfl (by decide) rfl rfl rfl (by decide)

/-- C6: on the Update path, the update document contains a Replace of State
to the reopen state if and only if the matched item's current State equals
the configured auto-resolve state. -/
theorem C6_reopen_iff_autoresolved (c : Client) (tmpl : Tmpl) (conf : ReceiverConfig)
    (data : Data) (project : String) (i : Int) (ids : List Int) (wi : WorkItem)
    (ar : AutoResolve) (doc0 : List JsonPatchOperation)
    (hproj : tmpl conf.project = Except.ok project)
    (hfir : firingAlerts data.alerts ≠ [])
    (hq : c.queryByWiql (buildWiql data project) = Except.ok (i :: ids))
    (hget : c.getWorkItem i = Except.ok wi)
    (hskip : ¬ wi.fields stateKey = some conf.skipReopenState)
    (har : conf.autoResolve = some ar)
    (hgen : generateWorkItemDocument tmpl conf data false = Except.ok doc0) :
    ∃ args, updateArgsOf (Notify c tmpl conf data).2 = [args] ∧
      ((∃ op ∈ args.document, op.op = OperationKind.Replace ∧ op.path = statePath ∧
          op.value = conf.reopenState) ↔ wi.fields stateKey = some ar.state) := by
  refine ⟨⟨updateDocument conf data wi doc0, wi.id, some project⟩,
    notify_update_args c tmpl conf data project i ids wi doc0 hproj hfir hq hget hskip hgen,
    updateDocument_state_iff conf data wi doc0 ar har
      (gen_all_add tmpl conf data false doc0 hgen)⟩

/-- C6 (witness): the reopen behavior at a concrete matched item sitting in
the auto-resolve state Done. -/
theorem C6_reopen_iff_autoresolved_witness :
    ∃ args, updateArgsOf (Notify clDone tmplId confAuto dataFiring).2 = [args] ∧
      ((∃ op ∈ args.document, op.op = OperationKind.Replace ∧ op.path = statePath ∧
          op.value = confAuto.reopenState) ↔
        wiDone.fields stateKey = some ("Done")) :=
  C6_reopen_iff_autoresolved clDone tmplId confAuto dataFiring ("TestProject") 4 [] wiDone
    (⟨"Done"⟩ : AutoResolve)
    [⟨OperationKind.Add, titlePath, ("S")⟩, ⟨OperationKind.Add, descriptionPath, ("D")⟩]
    rfl (by decide) rfl rfl (by decide) rfl rfl

/-- C7: when the summary template renders, a successfully built document
starts with the Title operation: the rendered string unchanged when its
length is at most 128, its first 128 characters (exactly 128 long) when
longer; and any builder error is never the title render, it names the
description, priority or field that failed. -/
theorem C7_title_truncation (tmpl : Tmpl) (conf : ReceiverConfig) (data : Data)
    (af : Bool) (s : String)
    (hsum : tmpl conf.summary = Except.ok s) :
    (goLen s ≤ 128 → ∀ doc, generateWorkItemDocument tmpl conf data af = Except.ok doc →
      doc.head? = some ⟨OperationKind.Add, titlePath, s⟩) ∧
    (128 < goLen s → ∀ doc, generateWorkItemDocument tmpl conf data af = Except.ok doc →
      doc.head? = some ⟨OperationKind.Add, titlePath, goTake s 128⟩ ∧
      goLen (goTake s 128) = 128) ∧
    (∀ e, generateWorkItemDocument tmpl conf data af = Except.error e →
      (¬ ∃ e0, tmpl conf.summary = Except.error e0) ∧ IdentifiesFailure tmpl conf e) := by
  refine ⟨?_, ?_, ?_⟩
  · intro hle doc hdoc
    obtain ⟨t0, d, pops, fops, hs, _, _, _, hdeq⟩ := gen_decompose tmpl conf data af doc hdoc
    rw [hsum] at hs
    injection hs with ht0
    subst ht0
    subst hdeq
    simp only [List.cons_append, List.head?_cons]
    unfold goTitle
    rw [if_neg (not_lt.mpr hle)]
  · intro hgt doc hdoc
    obtain ⟨t0, d, pops, fops, hs, _, _, _, hdeq⟩ := gen_decompose tmpl conf data af doc hdoc
    rw [hsum] at hs
    injection hs with ht0
    subst ht0
    subst hdeq
    constructor
    · simp only [List.cons_append, List.head?_cons]
      unfold goTitle
      rw [if_pos hgt]
    · show (s.data.take 128).length = 128
      rw [List.length_take]
      exact Nat.min_eq_left (le_of_lt hgt)
  · intro e he
    refine ⟨?_, gen_error tmpl conf data af e he⟩
    rintro ⟨e0, he0⟩
    rw [hsum] at he0
    exact absurd he0 (by simp)

/-- C7 (witness): truncation of a 200-character summary render. -/
theorem C7_title_truncation_witness :
    (goLen s200 ≤ 128 → ∀ doc,
      generateWorkItemDocument tmplLong confPlain dataFiring false = Except.ok doc →
      doc.head? = some ⟨OperationKind.Add, titlePath, s200⟩) ∧
    (128 < goLen s200 → ∀ doc,
      generateWorkItemDocument tmplLong confPlain dataFiring false = Except.ok doc →
      doc.head? = some ⟨OperationKind.Add, titlePath, goTake s200 128⟩ ∧
      goLen (goTake s200 128) = 128) ∧
    (∀ e, generateWorkItemDocument tmplLong confPlain dataFiring false = Except.error e →
      (¬ ∃ e0, tmplLong confPlain.summary = Except.error e0) ∧
      IdentifiesFailure tmplLong confPlain e) :=
  C7_title_truncation tmplLong confPlain dataFiring false s200 rfl

/-- C8: the patch-document builder succeeds exactly when every involved
template render succeeds, and any builder error identifies the failing
field: title, description, priority, or the configured field by name. -/
theorem C8_render_error_iff (tmpl : Tmpl) (conf : ReceiverConfig) (data : Data)
    (af : Bool) :
    ((∃ doc, generateWorkItemDocument tmpl conf data af = Except.ok doc) ↔
      RendersOk tmpl conf) ∧
    ∀ e, generateWorkItemDocument tmpl conf data af = Except.error e →
      IdentifiesFailure tmpl conf e := by
  constructor
  · constructor
    · rintro ⟨doc, hdoc⟩
      obtain ⟨t0, d, pops, fops, hs, hd, hp, hf, _⟩ :=
        gen_decompose tmpl conf data af doc hdoc
      refine ⟨⟨t0, hs⟩, ⟨d, hd⟩, ?_, renderFields_ok_renders tmpl conf.fields fops hf⟩
      rcases renderPriority_ok tmpl conf pops hp with ⟨hpe, _⟩ | ⟨_, v, hv, _⟩
      · exact Or.inl hpe
      · exact Or.inr ⟨v, hv⟩
    · exact gen_ok_of tmpl conf data af
  · exact gen_error tmpl conf data af

/-- C8 (witness): a failing description template aborts the build with an
error naming the description. -/
theorem C8_render_error_iff_witness :
    generateWorkItemDocument tmplFailDesc confPlain dataFiring true =
      Except.error (("render description: ") ++ ("boom")) ∧
    IdentifiesFailure tmplFailDesc confPlain (("render description: ") ++ ("boom")) :=
  ⟨rfl, (C8_render_error_iff tmplFailDesc confPlain dataFiring true).2 _ rfl⟩

set_option maxRecDepth 40000 in
/-- C9: every canonical field round-trips through the lookup under both its
bare name and its prefixed path; any string outside the closed set is not
found and the builder synthesizes its path, the empty key giving exactly
the bare prefix. -/
theorem C9_field_path_resolution :
    (∀ f ∈ AllWorkItemFields, ParseAzureWorkItemField f = some f ∧
      ParseAzureWorkItemField (fieldPath f) = some f) ∧
    (∀ s : String, (∀ f ∈ AllWorkItemFields, s ≠ f ∧ s ≠ fieldPath f) →
      ParseAzureWorkItemField s = none ∧
      resolveFieldPath s = ("/fields/") ++ s) ∧
    resolveFieldPath ("") = ("/fields/") := by
  refine ⟨by decide, ?_, by decide⟩
  intro s hs
  have hmem : goTrimPre ("/fields/") s ∉ AllWorkItemFields := by
    unfold goTrimPre
    by_cases h : s.data.take ("/fields/").data.length = ("/fields/").data
    · rw [if_pos h]
      intro hmem2
      refine (hs _ hmem2).2 ?_
      apply string_ext
      show s.data = (("/fields/") ++ String.mk (s.data.drop ("/fields/").data.length)).data
      rw [string_data_append]
      show s.data = ("/fields/").data ++ s.data.drop ("/fields/").data.length
      conv_lhs => rw [← List.take_append_drop (("/fields/").data.length) s.data]
      rw [h]
    · rw [if_neg h]
      intro hmem2
      exact (hs _ hmem2).1 rfl
  have hnone : ParseAzureWorkItemField s = none := by
    show (if goTrimPre ("/fields/") s ∈ AllWorkItemFields
      then some (goTrimPre ("/fields/") s) else none) = none
    rw [if_neg hmem]
  refine ⟨hnone, ?_⟩
  unfold resolveFieldPath
  rw [hnone]

/-- C9 (witness): the round-trip at a canonical field and the synthesized
path at a custom key. -/
theorem C9_field_path_resolution_witness :
    (ParseAzureWorkItemField ("System.Title") = some ("System.Title") ∧
      ParseAzureWorkItemField (fieldPath ("System.Title")) = some ("System.Title")) ∧
    (ParseAzureWorkItemField ("Custom.Env") = none ∧
      resolveFieldPath ("Custom.Env") = ("/fields/") ++ ("Custom.Env")) :=
  ⟨C9_field_path_resolution.1 ("System.Title") (by decide),
   C9_field_path_resolution.2.1 ("Custom.Env") (by decide)⟩

end AlertAzDo
